import Mathlib

/-!
Verification development for the Online-Payment-Fraud-Detection repository.

The Python source is shallowly embedded: SQLAlchemy tables become lists of
records in a `DB` structure, each stateful operation becomes a function
`DB → ... → DB × Outcome` (each `with eng.begin()` block in the source is one
atomic unit of work, so a whole operation is one pure state transformer),
Python floats become `ℚ`, and `datetime` values become an explicit `Clock`
(hours since an epoch, plus the wall-clock hour and weekday that the source
reads via `datetime.now()`).

Embedded operations (file / function of origin):
- `calculate_fraud_risk_score` — src/pages/user_dashboard.py
- `process_payment`             — src/pages/user_dashboard.py
- `resolve_case`                — src/pages/cyber_dashboard_old.py,
  `render_integrated_investigation` (queue filter + decision form handler)
- `assign_case`                 — src/pages/admin_dashboard.py (case assignment)
- `admin_force_approve`         — src/pages/admin_dashboard.py,
  `render_payment_approvals` ("Force Approve" button handler)
- `log_audit`, `auth_login`     — src/lib/auth.py
-/

namespace FraudApp

/-- The JSON value stored in the `settings` table under key "system";
fields and defaults from `init_db` in src/lib/db.py. -/
structure SettingsVal where
  tx_limit_amount : ℚ
  max_failed_attempts : Nat
  unusual_locations : List String
  flag_threshold : ℚ
  block_threshold : ℚ
  default_user_balance : ℚ
deriving Repr, DecidableEq

/-- A row of the `users` table (src/lib/db.py); only the columns the embedded
operations read. `created_at` is in hours since the epoch. -/
structure User where
  id : Nat
  balance : ℚ
  created_at : Int
  name : String
deriving Repr, DecidableEq

/-- A row of the `transactions` table (src/lib/db.py); only the columns the
embedded operations read. `created_at` is in hours since the epoch. -/
structure Txn where
  id : Nat
  sender_id : Nat
  recipient_id : Nat
  amount : ℚ
  status : String
  risk_score : ℚ
  created_at : Int
deriving Repr, DecidableEq

/-- A row of the `cases` table (src/lib/db.py). -/
structure Case where
  id : Nat
  transaction_id : Nat
  assigned_to : Option Nat
  status : String
  finding : String
  priority : String
deriving Repr, DecidableEq

/-- A successfully persisted row of the `audit_logs` table. -/
structure AuditRow where
  actor_user_id : Nat
  action : String
  entity_type : String
  entity_id : Nat
deriving Repr, DecidableEq

/-- The database state: the tables the embedded operations touch, plus the
autoincrement counters SQLite assigns primary keys from. -/
structure DB where
  users : List User
  txns : List Txn
  cases : List Case
  audits : List AuditRow
  settings : Option SettingsVal
  nextTxnId : Nat
  nextCaseId : Nat
deriving Repr, DecidableEq

/-- The parts of `datetime.now()` the source reads: hours since the epoch
(`now`, used for the 24h velocity window and account age), the hour of day
(0–23) and the weekday (0 = Monday … 6 = Sunday). -/
structure Clock where
  now : Int
  hour : Nat
  weekday : Nat
deriving Repr, DecidableEq

def findUser (db : DB) (uid : Nat) : Option User :=
  db.users.find? (fun u => u.id == uid)

def findTxn (db : DB) (tid : Nat) : Option Txn :=
  db.txns.find? (fun t => t.id == tid)

def findCase (db : DB) (cid : Nat) : Option Case :=
  db.cases.find? (fun c => c.id == cid)

/-- `UPDATE users SET balance = b WHERE id = uid`. -/
def updateBalance (db : DB) (uid : Nat) (b : ℚ) : DB :=
  { db with users := db.users.map (fun u => if u.id == uid then { u with balance := b } else u) }

/-- `UPDATE transactions SET status = s WHERE id = tid`. -/
def setTxnStatus (db : DB) (tid : Nat) (s : String) : DB :=
  { db with txns := db.txns.map (fun t => if t.id == tid then { t with status := s } else t) }

/-- Balance of a user as seen by a fresh `SELECT`. -/
def userBalance (db : DB) (uid : Nat) : Option ℚ :=
  (findUser db uid).map User.balance

/-- Status of a transaction as seen by a fresh `SELECT`. -/
def txnStatus (db : DB) (tid : Nat) : Option String :=
  (findTxn db tid).map Txn.status

def caseStatus (db : DB) (cid : Nat) : Option String :=
  (findCase db cid).map Case.status

def caseFinding (db : DB) (cid : Nat) : Option String :=
  (findCase db cid).map Case.finding

/-- `sys_cfg.get("tx_limit_amount", 5000.0)` after reading the settings row. -/
def txLimit (db : DB) : ℚ :=
  match db.settings with
  | some s => s.tx_limit_amount
  | none => 5000

/-- The payment request as assembled by the payment form plus the values
`process_payment` / `calculate_fraud_risk_score` receive as arguments. -/
structure PayReq where
  sender_id : Nat
  recipient_id : Nat
  amount : ℚ
  location : String
  user_agent : String
  failed_attempts : Nat
  test_scenario : String
deriving Repr, DecidableEq

/-- One constructor per human-readable factor string appended by
`calculate_fraud_risk_score` (and, for the last three, by `process_payment`)
in src/pages/user_dashboard.py; each constructor carries the data interpolated
into the corresponding f-string. -/
inductive RiskFactor where
  | highAmountTestScenario
  | largeTxOverLimit (limit : ℚ)
  | significantOver1000
  | roundAmountPattern
  | microTransaction
  | highRiskLocation (location : String)
  | suspiciousDevice (indicators : List String)
  | multipleAuthAttempts (n : Nat)
  | highTxVelocity (n : Nat)
  | highAmountVelocity (total : ℚ)
  | amountAboveTypical
  | newAccountUnder7
  | recentAccountUnder30
  | unusualHours
  | weekendPattern
  | largeTransactionAmount (amount : ℚ)
  | highRiskLocationAtProcessing (location : String)
  | mlFlagged (p : ℚ)
deriving Repr, DecidableEq

/-- The `risk_score += w; risk_factors.append(f)` step guarded by an `if`. -/
def addRisk (acc : ℚ × List RiskFactor) (cond : Bool) (w : ℚ) (f : RiskFactor) :
    ℚ × List RiskFactor :=
  if cond then (acc.1 + w, acc.2 ++ [f]) else acc

/-- The hard-coded list `high_risk_locations` inside
`calculate_fraud_risk_score` (src/pages/user_dashboard.py line 137). -/
def high_risk_locations : List String :=
  ["Unknown", "High-Risk-Geo", "Tor-Exit-Node", "VPN-Detected"]

/-- The hard-coded list `suspicious_indicators` inside
`calculate_fraud_risk_score` (src/pages/user_dashboard.py line 144). -/
def suspicious_indicators : List String :=
  ["bot", "headless", "automation", "emulator", "selenium", "phantom"]

/-- Whether `needle` occurs at the start of `hay` (on character lists). -/
def charsPrefixAt : List Char → List Char → Bool
  | [], _ => true
  | _ :: _, [] => false
  | a :: as, b :: bs => a == b && charsPrefixAt as bs

/-- Whether `needle` occurs somewhere inside `hay` (on character lists). -/
def charsContain (hay needle : List Char) : Bool :=
  match hay with
  | [] => needle.isEmpty
  | _ :: t => charsPrefixAt needle hay || charsContain t needle

/-- Python substring test `needle in hay.lower()` (the source lowercases the
device string before checking each indicator). -/
def containsLower (hay needle : String) : Bool :=
  charsContain (hay.toList.map Char.toLower) needle.toList

/-- Python `amount % 100 == 0` on an exact rational. -/
def isMultipleOf100 (a : ℚ) : Bool :=
  (a / 100).den == 1

/-- The transactions of the sender in the last 24 hours:
`created_at >= datetime.now() - timedelta(hours=24)`. -/
def recentTxs24h (db : DB) (clk : Clock) (sid : Nat) : List Txn :=
  db.txns.filter (fun t => t.sender_id == sid && decide (clk.now - 24 ≤ t.created_at))

/-- The sender's history sample: `SELECT amount, risk_score ... LIMIT 10`
(no ORDER BY, so SQLite returns the first ten rows in insertion order). -/
def historyTxs (db : DB) (sid : Nat) : List Txn :=
  (db.txns.filter (fun t => t.sender_id == sid)).take 10

/-- Account age in days: `(datetime.now() - user.created_at).days` with times
kept in hours, so floor-divide the difference by 24. -/
def accountAgeDays (clk : Clock) (u : User) : Int :=
  (clk.now - u.created_at).fdiv 24

/-- Embedding of `calculate_fraud_risk_score` (src/pages/user_dashboard.py
lines 99–215): sequential accumulation of weighted risk contributions, each
appending its factor, then `min(1.0, risk_score)`. -/
def calculate_fraud_risk_score (db : DB) (clk : Clock) (req : PayReq) :
    ℚ × List RiskFactor :=
  let tx_limit := txLimit db
  let a0 : ℚ × List RiskFactor := (0, [])
  let a1 := addRisk a0 (req.test_scenario == "High Amount Test") (25/100)
    .highAmountTestScenario
  let a2 :=
    if req.amount > tx_limit then
      addRisk a1 true (35/100) (.largeTxOverLimit tx_limit)
    else
      addRisk a1 (decide (req.amount > 1000)) (20/100) .significantOver1000
  let a3 := addRisk a2 (isMultipleOf100 req.amount && decide (req.amount ≥ 500))
    (25/100) .roundAmountPattern
  let a4 := addRisk a3 (decide (req.amount < 1)) (40/100) .microTransaction
  let a5 := addRisk a4 (high_risk_locations.contains req.location) (30/100)
    (.highRiskLocation req.location)
  let detected := suspicious_indicators.filter
    (fun s => containsLower req.user_agent s)
  let a6 := addRisk a5 (!detected.isEmpty) (30/100) (.suspiciousDevice detected)
  let a7 := addRisk a6 (req.failed_attempts > 0)
    (min (20/100) ((req.failed_attempts : ℚ) * (5/100)))
    (.multipleAuthAttempts req.failed_attempts)
  let recent := recentTxs24h db clk req.sender_id
  let a8 := addRisk a7 (recent.length > 5) (25/100) (.highTxVelocity recent.length)
  let total24 := (recent.map Txn.amount).sum + req.amount
  let a9 := addRisk a8 (decide (total24 > 10000)) (20/100)
    (.highAmountVelocity total24)
  let history := historyTxs db req.sender_id
  let a10 :=
    if history.isEmpty then a9
    else
      addRisk a9
        (decide (req.amount > ((history.map Txn.amount).sum / (history.length : ℚ)) * 3))
        (15/100) .amountAboveTypical
  let a11 :=
    match findUser db req.sender_id with
    | none => a10
    | some u =>
      if accountAgeDays clk u < 7 then
        addRisk a10 true (20/100) .newAccountUnder7
      else
        addRisk a10 (decide (accountAgeDays clk u < 30)) (10/100) .recentAccountUnder30
  let a12 := addRisk a11 (clk.hour < 6 || clk.hour > 23) (15/100) .unusualHours
  let a13 := addRisk a12 (clk.weekday ≥ 5) (5/100) .weekendPattern
  (min 1 a13.1, a13.2)

/-- Outcome of the ML call inside `process_payment`: either the probability
returned by `AdvancedFraudModel.predict_proba` (src/lib/ml.py), or an
exception raised during feature extraction / inference. -/
inductive MLResult where
  | ok (p : ℚ)
  | thrown (msg : String)
deriving Repr, DecidableEq

/-- Result of `process_payment` (its 5-tuple return, collapsed to the parts
the specification talks about). `errorCaught` is the outer `except` block:
the error text is shown to the user via `st.error` and returned in place of
a status. -/
inductive PayOutcome where
  | userNotFound
  | insufficientBalance
  | errorCaught (msg : String)
  | ok (tx_id : Nat) (status : String) (final : ℚ) (factors : List RiskFactor)
      (recipient_name : String)
deriving Repr, DecidableEq

def PayOutcome.statusOf : PayOutcome → Option String
  | .ok _ s _ _ _ => some s
  | _ => none

def PayOutcome.finalOf : PayOutcome → Option ℚ
  | .ok _ _ f _ _ => some f
  | _ => none

/-- Embedding of `process_payment` (src/pages/user_dashboard.py lines
217–365). The whole body runs inside one `with eng.begin()` block, so the
operation is a single atomic state transformer; an exception anywhere rolls
everything back and is caught by the outer `except`, which reports the error
to the user. -/
def process_payment (db : DB) (clk : Clock) (ml : MLResult) (req : PayReq) :
    DB × PayOutcome :=
  match findUser db req.sender_id, findUser db req.recipient_id with
  | none, _ => (db, .userNotFound)
  | some _, none => (db, .userNotFound)
  | some sender, some recipient =>
    let sender_balance := sender.balance
    if sender_balance < req.amount then (db, .insufficientBalance)
    else
      match ml with
      | .thrown msg => (db, .errorCaught msg)
      | .ok ml_prob =>
        let rr := calculate_fraud_risk_score db clk req
        let rule_risk_score := rr.1
        let existing_risk_factors := rr.2
        let final_risk_score := (7/10) * ml_prob + (3/10) * rule_risk_score
        let f1 :=
          if req.amount > 1000 then
            existing_risk_factors ++ [.largeTransactionAmount req.amount]
          else existing_risk_factors
        let f2 :=
          if req.location == "Unknown" || req.location == "High-Risk-Geo" then
            f1 ++ [.highRiskLocationAtProcessing req.location]
          else f1
        let risk_factors :=
          if ml_prob > 1/2 then f2 ++ [.mlFlagged ml_prob] else f2
        let status :=
          if final_risk_score ≥ 7/10 then "Pending Approval"
          else if final_risk_score ≥ 4/10 then "Under Review"
          else "Success"
        let process_now := !(final_risk_score ≥ 7/10)
        let db1 :=
          if process_now then
            updateBalance (updateBalance db req.sender_id (sender_balance - req.amount))
              req.recipient_id (recipient.balance + req.amount)
          else db
        let tx_id := db.nextTxnId
        let db2 :=
          { db1 with
            txns := db1.txns ++
              [(⟨tx_id, req.sender_id, req.recipient_id, req.amount, status,
                final_risk_score, clk.now⟩ : Txn)],
            nextTxnId := tx_id + 1 }
        let db3 :=
          if status == "Under Review" || status == "Pending Approval" then
            let priority := if status == "Pending Approval" then "High" else "Medium"
            { db2 with
              cases := db2.cases ++
                [(⟨db2.nextCaseId, tx_id, none, "Assigned", "", priority⟩ : Case)],
              nextCaseId := db2.nextCaseId + 1 }
          else db2
        let db4 :=
          { db3 with
            audits := db3.audits ++
              [(⟨req.sender_id, "process_payment", "transaction", tx_id⟩ : AuditRow)] }
        let recipient_name :=
          if recipient.name == "" then "Unknown Recipient" else recipient.name
        (db4, .ok tx_id status final_risk_score risk_factors recipient_name)

/-- The investigator's verdict on a case. -/
inductive Finding where
  | safe
  | fraudulent
deriving Repr, DecidableEq

def Finding.str : Finding → String
  | .safe => "Safe"
  | .fraudulent => "Fraudulent"

/-- Result of a resolution attempt. `notSelectable` means the case is not in
the investigation queue (the query in `render_integrated_investigation` only
offers cases assigned to the officer with status Assigned/In Review, and the
Assigned ones only when their transaction is Pending Approval), so no
resolution code runs. `crashed` is the AttributeError raised when the
insufficient-balance display reads `sender.balance` for a missing sender;
the enclosing `eng.begin()` then rolls the unit of work back. -/
inductive ResolveOutcome where
  | notSelectable
  | crashed
  | resolved
deriving Repr, DecidableEq

/-- Whether a case is offered for investigation by
`render_integrated_investigation` (src/pages/cyber_dashboard_old.py lines
313–409): it must be assigned to the officer with status Assigned or
In Review (the query), joined to an existing transaction, and then appear in
`prioritized_cases` = the Assigned-and-Pending-Approval ones plus all the
In Review ones. -/
def caseSelectable (db : DB) (officer : Nat) (c : Case) : Bool :=
  c.assigned_to == some officer &&
    (match findTxn db c.transaction_id with
     | none => false
     | some t =>
       (c.status == "Assigned" && t.status == "Pending Approval") ||
         c.status == "In Review")

/-- Python `s.lower()` on the finding string, computed characterwise. -/
def strToLower (s : String) : String :=
  ⟨s.data.map Char.toLower⟩

/-- Sets the case row Resolved with the finding and appends the audit row —
the tail of the resolution block (src/pages/cyber_dashboard_old.py lines
1374–1388). -/
def finalizeCase (db : DB) (officer cid tid : Nat) (finding : String) : DB :=
  let db1 :=
    { db with
      cases := db.cases.map (fun (c : Case) =>
        if c.id == cid then { c with status := "Resolved", finding := finding } else c) }
  { db1 with
    audits := db1.audits ++
      [(⟨officer, "comprehensive_investigation_resolution_" ++ strToLower finding,
        "fraud_investigation", tid⟩ : AuditRow)] }

/-- Embedding of the case-resolution handler in
`render_integrated_investigation` (src/pages/cyber_dashboard_old.py lines
1321–1388), guarded by the queue/selection logic of lines 313–409. The
decision block runs in one `with eng.begin()` unit of work. -/
def resolve_case (db : DB) (officer cid : Nat) (finding : Finding) :
    DB × ResolveOutcome :=
  match findCase db cid with
  | none => (db, .notSelectable)
  | some c =>
    if caseSelectable db officer c then
      match findTxn db c.transaction_id with
      | none => (db, .notSelectable)
      | some t =>
        match finding with
        | .safe =>
          match findUser db t.sender_id, findUser db t.recipient_id with
          | some s, some r =>
            if s.balance ≥ t.amount then
              let db1 := updateBalance db t.sender_id (s.balance - t.amount)
              let db2 := updateBalance db1 t.recipient_id (r.balance + t.amount)
              let db3 := setTxnStatus db2 t.id "Success"
              (finalizeCase db3 officer cid t.id "Safe", .resolved)
            else
              (finalizeCase (setTxnStatus db t.id "Rejected - Insufficient Balance")
                officer cid t.id "Safe", .resolved)
          | some _, none =>
            (finalizeCase (setTxnStatus db t.id "Rejected - Insufficient Balance")
              officer cid t.id "Safe", .resolved)
          | none, _ => (db, .crashed)
        | .fraudulent =>
          (finalizeCase (setTxnStatus db t.id "Rejected - Fraudulent")
            officer cid t.id "Fraudulent", .resolved)
    else (db, .notSelectable)

/-- Embedding of the admin case-assignment handler
(src/pages/admin_dashboard.py lines 647–663): sets `assigned_to` and moves the
case to In Review, appending an audit row. -/
def assign_case (db : DB) (admin cyber cid : Nat) : DB :=
  let db1 :=
    { db with
      cases := db.cases.map (fun (c : Case) =>
        if c.id == cid then { c with assigned_to := some cyber, status := "In Review" }
        else c) }
  { db1 with audits := db1.audits ++ [(⟨admin, "assign_case", "case", cid⟩ : AuditRow)] }

/-- Result of the admin "Force Approve" button. `notPending` means the
transaction is not listed (the page only shows status "Pending Approval");
`insufficientShown` is the `st.error("Cannot process - insufficient
balance")` branch, which performs no writes. -/
inductive OverrideOutcome where
  | notPending
  | approved
  | insufficientShown
deriving Repr, DecidableEq

/-- Appends one successfully inserted audit row. -/
def appendAudit (db : DB) (row : AuditRow) : DB :=
  { db with audits := db.audits ++ [row] }

/-- Embedding of the admin force-approve handler in
`render_payment_approvals` (src/pages/admin_dashboard.py lines 860–898). -/
def admin_force_approve (db : DB) (admin tid : Nat) : DB × OverrideOutcome :=
  match findTxn db tid with
  | none => (db, .notPending)
  | some t =>
    if t.status == "Pending Approval" then
      match findUser db t.sender_id, findUser db t.recipient_id with
      | some s, some r =>
        if s.balance ≥ t.amount then
          let db1 := updateBalance db t.sender_id (s.balance - t.amount)
          let db2 := updateBalance db1 t.recipient_id (r.balance + t.amount)
          let db3 := setTxnStatus db2 tid "Success (Admin Override)"
          (appendAudit db3 ⟨admin, "admin_force_approve", "transaction", tid⟩,
           .approved)
        else (db, .insufficientShown)
      | _, _ => (db, .insufficientShown)
    else (db, .notPending)

/-- Columns of the `audit_logs` table as declared in src/lib/db.py lines
96–105 (no `meta` column). -/
def audit_logs_columns : List String :=
  ["id", "actor_user_id", "action", "entity_type", "entity_id", "details", "created_at"]

/-- Column keys supplied by the insert inside `log_audit`
(src/lib/auth.py lines 59–65). -/
def log_audit_insert_columns : List String :=
  ["actor_user_id", "action", "entity_type", "entity_id", "meta"]

/-- SQLAlchemy accepts an insert only when every supplied value key is a
column of the target table; otherwise it raises (Unconsumed column names). -/
def insertAccepted (table_cols supplied : List String) : Bool :=
  supplied.all (fun c => table_cols.contains c)

/-- One insert attempt of `log_audit` against the `audit_logs` table: appends
the row when the supplied column keys are valid, otherwise raises (`none`). -/
def attemptAuditInsert (t : List AuditRow) (supplied : List String) (row : AuditRow) :
    Option (List AuditRow) :=
  if insertAccepted audit_logs_columns supplied then some (t ++ [row]) else none

/-- The retry loop of `log_audit` (src/lib/auth.py lines 50–75), with
`remaining` attempts left and current base `retry_delay`. Returns the audit
table afterwards, the boolean result, the number of attempts made, and the
base delays slept between attempts (the code adds a small random jitter to
each and doubles `retry_delay` after every sleep). -/
def log_audit_go (t : List AuditRow) (row : AuditRow) :
    Nat → ℚ → List AuditRow × Bool × Nat × List ℚ
  | 0, _ => (t, false, 0, [])
  | n + 1, delay =>
    match attemptAuditInsert t log_audit_insert_columns row with
    | some t' => (t', true, 1, [])
    | none =>
      if n == 0 then (t, false, 1, [])
      else
        let rest := log_audit_go t row n (delay * 2)
        (rest.1, rest.2.1, rest.2.2.1 + 1, delay :: rest.2.2.2)

/-- Embedding of `log_audit` (src/lib/auth.py lines 50–75):
`max_retries = 3`, initial `retry_delay = 0.1`. -/
def log_audit (t : List AuditRow) (row : AuditRow) :
    List AuditRow × Bool × Nat × List ℚ :=
  log_audit_go t row 3 (1/10)

/-- A row of the `users` table as `auth_login` reads it; `password_ok`
abstracts `verify_password(password, u.password_hash)`. -/
structure AuthUser where
  id : Nat
  email : String
  password : String
  status : String
  name : String
deriving Repr, DecidableEq

/-- Embedding of `auth_login` (src/lib/auth.py lines 77–110): credential and
status checks, then a `log_audit` call whose result is ignored. Returns the
success flag and the audit table afterwards. -/
def auth_login (usersT : List AuthUser) (auditT : List AuditRow)
    (email password : String) : Bool × List AuditRow :=
  match usersT.find? (fun u => u.email == email) with
  | none => (false, auditT)
  | some u =>
    if u.status == "pending" then (false, auditT)
    else if u.status == "rejected" then (false, auditT)
    else if u.status != "approved" then (false, auditT)
    else if !(password == u.password) then (false, auditT)
    else
      let la := log_audit auditT ⟨u.id, "login", "user", u.id⟩
      (true, la.1)

/-- Folding a list of guarded contributions through `addRisk`. -/
def foldAdd (acc : ℚ × List RiskFactor) :
    List (Bool × ℚ × RiskFactor) → ℚ × List RiskFactor
  | [] => acc
  | (c, w, f) :: t => foldAdd (addRisk acc c w f) t

/-- The guarded contributions of `calculate_fraud_risk_score`, in evaluation
order, with the `if`/`elif` chains flattened into mutually exclusive guards. -/
def ruleContribs (db : DB) (clk : Clock) (req : PayReq) :
    List (Bool × ℚ × RiskFactor) :=
  let tx_limit := txLimit db
  let detected := suspicious_indicators.filter
    (fun s => containsLower req.user_agent s)
  let recent := recentTxs24h db clk req.sender_id
  let total24 := (recent.map Txn.amount).sum + req.amount
  let history := historyTxs db req.sender_id
  let age? := (findUser db req.sender_id).map (accountAgeDays clk)
  [(req.test_scenario == "High Amount Test", 25/100, .highAmountTestScenario),
   (decide (req.amount > tx_limit), 35/100, .largeTxOverLimit tx_limit),
   (!(decide (req.amount > tx_limit)) && decide (req.amount > 1000), 20/100,
     .significantOver1000),
   (isMultipleOf100 req.amount && decide (req.amount ≥ 500), 25/100,
     .roundAmountPattern),
   (decide (req.amount < 1), 40/100, .microTransaction),
   (high_risk_locations.contains req.location, 30/100,
     .highRiskLocation req.location),
   (!detected.isEmpty, 30/100, .suspiciousDevice detected),
   (req.failed_attempts > 0,
     min (20/100) ((req.failed_attempts : ℚ) * (5/100)),
     .multipleAuthAttempts req.failed_attempts),
   (recent.length > 5, 25/100, .highTxVelocity recent.length),
   (decide (total24 > 10000), 20/100, .highAmountVelocity total24),
   (!history.isEmpty &&
      decide (req.amount > ((history.map Txn.amount).sum / (history.length : ℚ)) * 3),
     15/100, .amountAboveTypical),
   ((age?.map (fun a => decide (a < 7))).getD false, 20/100, .newAccountUnder7),
   ((age?.map (fun a => !(decide (a < 7)) && decide (a < 30))).getD false, 10/100,
     .recentAccountUnder30),
   (clk.hour < 6 || clk.hour > 23, 15/100, .unusualHours),
   (clk.weekday ≥ 5, 5/100, .weekendPattern)]

theorem foldAdd_char (l : List (Bool × ℚ × RiskFactor)) (acc : ℚ × List RiskFactor) :
    foldAdd acc l =
      (acc.1 + ((l.filter (fun x => x.1)).map (fun x => x.2.1)).sum,
       acc.2 ++ (l.filter (fun x => x.1)).map (fun x => x.2.2)) := by
  induction l generalizing acc with
  | nil => simp [foldAdd]
  | cons hd t ih =>
    obtain ⟨c, w, f⟩ := hd
    cases c with
    | false => simp [foldAdd, addRisk, ih]
    | true =>
      simp only [foldAdd, addRisk, if_pos, ih, List.filter_cons_of_pos, List.map_cons,
        List.sum_cons]
      simp [add_assoc, List.append_assoc]

theorem calculate_eq_foldAdd (db : DB) (clk : Clock) (req : PayReq) :
    calculate_fraud_risk_score db clk req =
      (min 1 (foldAdd (0, []) (ruleContribs db clk req)).1,
       (foldAdd (0, []) (ruleContribs db clk req)).2) := by
  have h2 : ∀ a : ℚ × List RiskFactor,
      (if req.amount > txLimit db then
        addRisk a true (35/100) (.largeTxOverLimit (txLimit db))
      else addRisk a (decide (req.amount > 1000)) (20/100) .significantOver1000) =
      addRisk
        (addRisk a (decide (req.amount > txLimit db)) (35/100)
          (.largeTxOverLimit (txLimit db)))
        (!(decide (req.amount > txLimit db)) && decide (req.amount > 1000)) (20/100)
        .significantOver1000 := by
    intro a
    by_cases h : req.amount > txLimit db <;> simp [addRisk, h]
  have h10 : ∀ a : ℚ × List RiskFactor,
      (if (historyTxs db req.sender_id).isEmpty then a
      else
        addRisk a
          (decide (req.amount >
            (((historyTxs db req.sender_id).map Txn.amount).sum /
              ((historyTxs db req.sender_id).length : ℚ)) * 3))
          (15/100) .amountAboveTypical) =
      addRisk a
        (!(historyTxs db req.sender_id).isEmpty &&
          decide (req.amount >
            (((historyTxs db req.sender_id).map Txn.amount).sum /
              ((historyTxs db req.sender_id).length : ℚ)) * 3))
        (15/100) .amountAboveTypical := by
    intro a
    cases hh : (historyTxs db req.sender_id).isEmpty <;> simp [addRisk, hh]
  have h11 : ∀ a : ℚ × List RiskFactor,
      (match findUser db req.sender_id with
      | none => a
      | some u =>
        if accountAgeDays clk u < 7 then
          addRisk a true (20/100) .newAccountUnder7
        else
          addRisk a (decide (accountAgeDays clk u < 30)) (10/100)
            .recentAccountUnder30) =
      addRisk
        (addRisk a
          ((((findUser db req.sender_id).map (accountAgeDays clk)).map
            (fun x => decide (x < 7))).getD false)
          (20/100) .newAccountUnder7)
        ((((findUser db req.sender_id).map (accountAgeDays clk)).map
          (fun x => !(decide (x < 7)) && decide (x < 30))).getD false)
        (10/100) .recentAccountUnder30 := by
    intro a
    cases hu : findUser db req.sender_id with
    | none => simp [addRisk]
    | some u => by_cases h7 : accountAgeDays clk u < 7 <;> simp [addRisk, h7]
  simp only [calculate_fraud_risk_score, ruleContribs, foldAdd]
  rw [h2, h10, h11]

/-- Every weight in the contribution list is non-negative. -/
theorem ruleContribs_weight_nonneg (db : DB) (clk : Clock) (req : PayReq) :
    ∀ x ∈ ruleContribs db clk req, 0 ≤ x.2.1 := by
  intro x hx
  simp only [ruleContribs, List.mem_cons, List.not_mem_nil, or_false] at hx
  rcases hx with rfl | rfl | rfl | rfl | rfl | rfl | rfl | rfl | rfl | rfl | rfl
    | rfl | rfl | rfl | rfl
  all_goals norm_num

theorem rule_score_nonneg (db : DB) (clk : Clock) (req : PayReq) :
    0 ≤ (calculate_fraud_risk_score db clk req).1 := by
  rw [calculate_eq_foldAdd, foldAdd_char]
  refine le_min (by norm_num) ?_
  simp only [zero_add]
  refine List.sum_nonneg ?_
  intro y hy
  obtain ⟨x, hmem, rfl⟩ := List.mem_map.1 hy
  exact ruleContribs_weight_nonneg db clk req x (List.mem_of_mem_filter hmem)

theorem rule_score_le_one (db : DB) (clk : Clock) (req : PayReq) :
    (calculate_fraud_risk_score db clk req).1 ≤ 1 := by
  rw [calculate_eq_foldAdd]
  exact min_le_left _ _

theorem findq_map_comm {α : Type} (l : List α) (g : α → α) (p : α → Bool)
    (h : ∀ x, p (g x) = p x) : (l.map g).find? p = (l.find? p).map g := by
  induction l with
  | nil => rfl
  | cons a t ih =>
    simp only [List.map_cons, List.find?]
    rw [h a]
    cases hp : p a <;> simp [ih]

theorem findUser_updateBalance (db : DB) (uid : Nat) (b : ℚ) (uid' : Nat) :
    findUser (updateBalance db uid b) uid' =
      (findUser db uid').map
        (fun u => if u.id == uid then { u with balance := b } else u) := by
  unfold findUser updateBalance
  refine findq_map_comm _ _ _ ?_
  intro x
  by_cases hx : (x.id == uid) = true <;> simp [hx]

theorem findTxn_setTxnStatus (db : DB) (tid : Nat) (s : String) (tid' : Nat) :
    findTxn (setTxnStatus db tid s) tid' =
      (findTxn db tid').map
        (fun t => if t.id == tid then { t with status := s } else t) := by
  unfold findTxn setTxnStatus
  refine findq_map_comm _ _ _ ?_
  intro x
  by_cases hx : (x.id == tid) = true <;> simp [hx]

theorem findCase_finalizeCase (db : DB) (officer cid tid : Nat) (f : String)
    (cid' : Nat) :
    findCase (finalizeCase db officer cid tid f) cid' =
      (findCase db cid').map
        (fun c => if c.id == cid then { c with status := "Resolved", finding := f }
                  else c) := by
  unfold findCase finalizeCase
  refine findq_map_comm _ _ _ ?_
  intro x
  by_cases hx : (x.id == cid) = true <;> simp [hx]

theorem findUser_id (db : DB) (uid : Nat) (u : User) (h : findUser db uid = some u) :
    u.id = uid := by
  have := List.find?_some h
  simpa using this

theorem findTxn_id (db : DB) (tid : Nat) (t : Txn) (h : findTxn db tid = some t) :
    t.id = tid := by
  have := List.find?_some h
  simpa using this

theorem findCase_id (db : DB) (cid : Nat) (c : Case) (h : findCase db cid = some c) :
    c.id = cid := by
  have := List.find?_some h
  simpa using this

/-- After the debit-then-credit pair of balance updates issued for two
distinct users, each user's balance reads back as the written value. -/
theorem userBalance_after_transfer (db : DB) (sid rid : Nat) (bs br : ℚ)
    (s r : User) (hs : findUser db sid = some s) (hr : findUser db rid = some r)
    (hne : sid ≠ rid) :
    userBalance (updateBalance (updateBalance db sid bs) rid br) sid = some bs ∧
    userBalance (updateBalance (updateBalance db sid bs) rid br) rid = some br := by
  have hsid : s.id = sid := findUser_id db sid s hs
  have hrid : r.id = rid := findUser_id db rid r hr
  constructor
  · rw [userBalance, findUser_updateBalance, findUser_updateBalance, hs]
    simp [hsid, hne]
  · rw [userBalance, findUser_updateBalance, findUser_updateBalance, hr]
    simp [hrid, Ne.symm hne]

/-- The configured high-risk location set: `unusual_locations` in the
Settings record. Spec-side definition, written from the claim's words
("+0.30 for a location in the configured high-risk set") for comparison
with the code's hard-coded list. -/
def configuredLocations (db : DB) : List String :=
  match db.settings with
  | some s => s.unusual_locations
  | none => []

/-- Claim C9's reading of the rule engine, written from the claim's words for
comparison with the source: exactly the enumerated contributions — no
test-scenario bonus, and the location check against the configured high-risk
set rather than the code's hard-coded list. -/
def claimedRuleContribs (db : DB) (clk : Clock) (req : PayReq) :
    List (Bool × ℚ × RiskFactor) :=
  let tx_limit := txLimit db
  let detected := suspicious_indicators.filter
    (fun s => containsLower req.user_agent s)
  let recent := recentTxs24h db clk req.sender_id
  let total24 := (recent.map Txn.amount).sum + req.amount
  let history := historyTxs db req.sender_id
  let age? := (findUser db req.sender_id).map (accountAgeDays clk)
  [(decide (req.amount > tx_limit), 35/100, .largeTxOverLimit tx_limit),
   (!(decide (req.amount > tx_limit)) && decide (req.amount > 1000), 20/100,
     .significantOver1000),
   (isMultipleOf100 req.amount && decide (req.amount ≥ 500), 25/100,
     .roundAmountPattern),
   (decide (req.amount < 1), 40/100, .microTransaction),
   ((configuredLocations db).contains req.location, 30/100,
     .highRiskLocation req.location),
   (!detected.isEmpty, 30/100, .suspiciousDevice detected),
   (req.failed_attempts > 0,
     min (20/100) ((req.failed_attempts : ℚ) * (5/100)),
     .multipleAuthAttempts req.failed_attempts),
   (recent.length > 5, 25/100, .highTxVelocity recent.length),
   (decide (total24 > 10000), 20/100, .highAmountVelocity total24),
   (!history.isEmpty &&
      decide (req.amount > ((history.map Txn.amount).sum / (history.length : ℚ)) * 3),
     15/100, .amountAboveTypical),
   ((age?.map (fun a => decide (a < 7))).getD false, 20/100, .newAccountUnder7),
   ((age?.map (fun a => !(decide (a < 7)) && decide (a < 30))).getD false, 10/100,
     .recentAccountUnder30),
   (clk.hour < 6 || clk.hour > 23, 15/100, .unusualHours),
   (clk.weekday ≥ 5, 5/100, .weekendPattern)]

/-- The rule-engine result as claim C9 states it. -/
def claimedRule (db : DB) (clk : Clock) (req : PayReq) : ℚ × List RiskFactor :=
  (min 1 (((claimedRuleContribs db clk req).filter (fun x => x.1)).map
    (fun x => x.2.1)).sum,
   ((claimedRuleContribs db clk req).filter (fun x => x.1)).map (fun x => x.2.2))

/-- Fixed scorer database for the C9 counterexample: default settings (so the
configured high-risk set is ["Unknown", "High-Risk-Geo"]), an old sender
account, no transaction history. -/
def dbC9 : DB :=
  ⟨[⟨1, 10000, -2000, "Alice"⟩, ⟨2, 500, -2000, "Bob"⟩], [], [], [],
   some ⟨5000, 3, ["Unknown", "High-Risk-Geo"], 4/10, 7/10, 2000⟩, 1, 1⟩

def clkC9 : Clock := ⟨0, 12, 2⟩

/-- A $1500 payment: on this amount the payment form auto-selects the
"High Amount Test" scenario; declared location "Tor-Exit-Node" is in the
code's hard-coded list but not in the configured set. -/
def reqC9 : PayReq :=
  ⟨1, 2, 1500, "Tor-Exit-Node", "chrome", 0, "High Amount Test"⟩

/-- Claim C9 counterexample: the code's rule score for this evaluated payment
is not the accumulation of exactly the claim's enumerated contributions — the
code adds a +0.25 "High amount test scenario" bonus (auto-selected by the
payment form for every amount ≥ $1000) and checks the location against a
hard-coded list rather than the configured set, yielding 1.0 where the
claim's enumeration yields 0.45 and prepending a factor the claim does not
list. -/
theorem spec_claim_C9_counterexample :
    (calculate_fraud_risk_score dbC9 clkC9 reqC9).1 = 1 ∧
    (claimedRule dbC9 clkC9 reqC9).1 = 45/100 ∧
    (calculate_fraud_risk_score dbC9 clkC9 reqC9).2.head? =
      some RiskFactor.highAmountTestScenario ∧
    calculate_fraud_risk_score dbC9 clkC9 reqC9 ≠ claimedRule dbC9 clkC9 reqC9 := by
  have hdet : suspicious_indicators.filter (fun s => containsLower "chrome" s) =
      ([] : List String) := by decide
  have hage7 : ¬ (Int.fdiv 2000 24 < 7) := by decide
  have hage30 : ¬ (Int.fdiv 2000 24 < 30) := by decide
  have hcalc : calculate_fraud_risk_score dbC9 clkC9 reqC9 =
      (1, [.highAmountTestScenario, .significantOver1000, .roundAmountPattern,
           .highRiskLocation "Tor-Exit-Node"]) := by
    norm_num [calculate_fraud_risk_score, addRisk, txLimit, dbC9, clkC9, reqC9,
      isMultipleOf100, high_risk_locations, recentTxs24h, historyTxs,
      accountAgeDays, findUser, List.find?, hdet, hage7, hage30, Rat.den_ofNat]
  have hloc1 : decide ("Tor-Exit-Node" = "Unknown") = false := by decide
  have hloc2 : decide ("Tor-Exit-Node" = "High-Risk-Geo") = false := by decide
  have hclaimed : claimedRule dbC9 clkC9 reqC9 =
      (45/100, [.significantOver1000, .roundAmountPattern]) := by
    norm_num [claimedRule, claimedRuleContribs, configuredLocations, txLimit,
      dbC9, clkC9, reqC9, isMultipleOf100, recentTxs24h, historyTxs,
      accountAgeDays, findUser, List.find?, hdet, hage7, hage30, hloc1, hloc2,
      Rat.den_ofNat]
  refine ⟨by rw [hcalc], by rw [hclaimed], by rw [hcalc]; rfl, ?_⟩
  intro h
  have h1 : (1 : ℚ) = 45/100 := by
    have := congrArg Prod.fst h
    rwa [hcalc, hclaimed] at this
  norm_num at h1

/-- Claim C9 (amended): the rule engine's result is the additive accumulation
of exactly the guarded contributions of `ruleContribs` — the claim's
enumerated weights plus a +0.25 "High amount test scenario" contribution
(first, when the test scenario is "High Amount Test", which the payment form
auto-selects for amounts ≥ $1000), with the location weight keyed to the
hard-coded list {Unknown, High-Risk-Geo, Tor-Exit-Node, VPN-Detected} rather
than the configured set — the total is capped at 1.0, and the factors are
returned in that fixed evaluation order with no re-sorting. -/
theorem spec_claim_C9 (db : DB) (clk : Clock) (req : PayReq) :
    calculate_fraud_risk_score db clk req =
      (min 1 (((ruleContribs db clk req).filter (fun x => x.1)).map
        (fun x => x.2.1)).sum,
       ((ruleContribs db clk req).filter (fun x => x.1)).map (fun x => x.2.2)) := by
  rw [calculate_eq_foldAdd, foldAdd_char]
  simp

/-- The hybrid score computed by `process_payment`
(src/pages/user_dashboard.py line 263): `0.7 × ml_probability + 0.3 × rule_score`. -/
def finalScore (db : DB) (clk : Clock) (req : PayReq) (p : ℚ) : ℚ :=
  (7/10) * p + (3/10) * (calculate_fraud_risk_score db clk req).1

theorem finalScore_def (db : DB) (clk : Clock) (req : PayReq) (p : ℚ) :
    (7/10) * p + (3/10) * (calculate_fraud_risk_score db clk req).1 =
      finalScore db clk req p := rfl

/-- Claim C1: for every submitted payment that passes the sender-balance
precondition, the final risk score is 0.7 × the scorer probability plus
0.3 × the rule score and lies in [0,1]; final score < 0.4 (the flag
threshold) gives a transaction with status "Success" and the sender debited /
recipient credited by exactly the amount; 0.4 ≤ score < 0.7 (the block
threshold) gives "Under Review" with the same transfer; score ≥ 0.7 gives
"Pending Approval" with all balances unchanged and exactly one case created
at priority "High". -/
theorem spec_claim_C1 (db : DB) (clk : Clock) (req : PayReq) (p : ℚ) (s r : User)
    (hs : findUser db req.sender_id = some s)
    (hr : findUser db req.recipient_id = some r)
    (hne : req.sender_id ≠ req.recipient_id)
    (hbal : req.amount ≤ s.balance)
    (hp0 : 0 ≤ p) (hp1 : p ≤ 1) :
    ((process_payment db clk (.ok p) req).2.finalOf =
        some (finalScore db clk req p) ∧
      0 ≤ finalScore db clk req p ∧ finalScore db clk req p ≤ 1) ∧
    (finalScore db clk req p < 4/10 →
      (process_payment db clk (.ok p) req).2.statusOf = some "Success" ∧
      userBalance (process_payment db clk (.ok p) req).1 req.sender_id =
        some (s.balance - req.amount) ∧
      userBalance (process_payment db clk (.ok p) req).1 req.recipient_id =
        some (r.balance + req.amount) ∧
      (process_payment db clk (.ok p) req).1.txns =
        db.txns ++ [⟨db.nextTxnId, req.sender_id, req.recipient_id, req.amount,
          "Success", finalScore db clk req p, clk.now⟩] ∧
      (process_payment db clk (.ok p) req).1.cases = db.cases) ∧
    (4/10 ≤ finalScore db clk req p → finalScore db clk req p < 7/10 →
      (process_payment db clk (.ok p) req).2.statusOf = some "Under Review" ∧
      userBalance (process_payment db clk (.ok p) req).1 req.sender_id =
        some (s.balance - req.amount) ∧
      userBalance (process_payment db clk (.ok p) req).1 req.recipient_id =
        some (r.balance + req.amount) ∧
      (process_payment db clk (.ok p) req).1.txns =
        db.txns ++ [⟨db.nextTxnId, req.sender_id, req.recipient_id, req.amount,
          "Under Review", finalScore db clk req p, clk.now⟩]) ∧
    (7/10 ≤ finalScore db clk req p →
      (process_payment db clk (.ok p) req).2.statusOf = some "Pending Approval" ∧
      (process_payment db clk (.ok p) req).1.users = db.users ∧
      (process_payment db clk (.ok p) req).1.txns =
        db.txns ++ [⟨db.nextTxnId, req.sender_id, req.recipient_id, req.amount,
          "Pending Approval", finalScore db clk req p, clk.now⟩] ∧
      (process_payment db clk (.ok p) req).1.cases =
        db.cases ++ [⟨db.nextCaseId, db.nextTxnId, none, "Assigned", "", "High"⟩]) := by
  have hrs0 := rule_score_nonneg db clk req
  have hrs1 := rule_score_le_one db clk req
  have hnotlt : ¬ (s.balance < req.amount) := not_lt.2 hbal
  have hb0 : 0 ≤ finalScore db clk req p := by unfold finalScore; nlinarith
  have hb1 : finalScore db clk req p ≤ 1 := by unfold finalScore; nlinarith
  refine ⟨⟨?_, hb0, hb1⟩, ?_, ?_, ?_⟩
  · simp only [process_payment, hs, hr]
    rw [if_neg hnotlt]
    rfl
  · intro hlt
    have h7 : ¬ (finalScore db clk req p ≥ 7/10) := by intro h; rw [ge_iff_le] at h; linarith
    have h4 : ¬ (finalScore db clk req p ≥ 4/10) := by intro h; rw [ge_iff_le] at h; linarith
    have htr := userBalance_after_transfer db req.sender_id req.recipient_id
      (s.balance - req.amount) (r.balance + req.amount) s r hs hr hne
    simp only [process_payment, hs, hr]
    rw [if_neg hnotlt]
    simp only [finalScore_def]
    simp [h7, h4]
    refine ⟨rfl, ?_, ?_, ?_, ?_⟩
    · simpa [userBalance, findUser, updateBalance] using htr.1
    · simpa [userBalance, findUser, updateBalance] using htr.2
    · simp [updateBalance]
    · simp [updateBalance]
  · intro h4' hlt
    have h7 : ¬ (finalScore db clk req p ≥ 7/10) := by intro h; rw [ge_iff_le] at h; linarith
    have h4 : finalScore db clk req p ≥ 4/10 := h4'
    have htr := userBalance_after_transfer db req.sender_id req.recipient_id
      (s.balance - req.amount) (r.balance + req.amount) s r hs hr hne
    simp only [process_payment, hs, hr]
    rw [if_neg hnotlt]
    simp only [finalScore_def]
    simp [h7, h4]
    refine ⟨rfl, ?_, ?_, ?_⟩
    · simpa [userBalance, findUser, updateBalance] using htr.1
    · simpa [userBalance, findUser, updateBalance] using htr.2
    · simp [updateBalance]
  · intro h7'
    have h7 : finalScore db clk req p ≥ 7/10 := h7'
    simp only [process_payment, hs, hr]
    rw [if_neg hnotlt]
    simp only [finalScore_def]
    simp [h7]
    rfl

theorem findTxn_updateBalance (db : DB) (uid : Nat) (b : ℚ) (tid : Nat) :
    findTxn (updateBalance db uid b) tid = findTxn db tid := rfl

theorem findUser_setTxnStatus (db : DB) (tid : Nat) (s : String) (uid : Nat) :
    findUser (setTxnStatus db tid s) uid = findUser db uid := rfl

theorem findTxn_finalizeCase (db : DB) (o cid tid : Nat) (f : String) (tid' : Nat) :
    findTxn (finalizeCase db o cid tid f) tid' = findTxn db tid' := rfl

theorem findUser_finalizeCase (db : DB) (o cid tid : Nat) (f : String) (uid : Nat) :
    findUser (finalizeCase db o cid tid f) uid = findUser db uid := rfl

theorem findCase_updateBalance (db : DB) (uid : Nat) (b : ℚ) (cid : Nat) :
    findCase (updateBalance db uid b) cid = findCase db cid := rfl

theorem findCase_setTxnStatus (db : DB) (tid : Nat) (s : String) (cid : Nat) :
    findCase (setTxnStatus db tid s) cid = findCase db cid := rfl

/-- Claim C5: resolving a selectable case on a Blocked ("Pending Approval")
transaction. Finding Safe re-validates the sender balance: if sufficient, the
funds move and the transaction becomes "Success"; if insufficient, the
transaction becomes "Rejected - Insufficient Balance" with no balance change.
Finding Fraudulent sets "Rejected - Fraudulent" with no balance change. In
every branch the case becomes "Resolved" with the finding recorded. -/
theorem spec_claim_C5 (db : DB) (officer cid : Nat) (c : Case) (t : Txn)
    (s r : User)
    (hc : findCase db cid = some c)
    (hassign : c.assigned_to = some officer)
    (hstat : c.status = "Assigned" ∨ c.status = "In Review")
    (htx : findTxn db c.transaction_id = some t)
    (hts : t.status = "Pending Approval")
    (hsend : findUser db t.sender_id = some s)
    (hrec : findUser db t.recipient_id = some r)
    (hne : t.sender_id ≠ t.recipient_id) :
    (t.amount ≤ s.balance →
      (resolve_case db officer cid .safe).2 = .resolved ∧
      txnStatus (resolve_case db officer cid .safe).1 c.transaction_id =
        some "Success" ∧
      userBalance (resolve_case db officer cid .safe).1 t.sender_id =
        some (s.balance - t.amount) ∧
      userBalance (resolve_case db officer cid .safe).1 t.recipient_id =
        some (r.balance + t.amount) ∧
      caseStatus (resolve_case db officer cid .safe).1 cid = some "Resolved" ∧
      caseFinding (resolve_case db officer cid .safe).1 cid = some "Safe") ∧
    (s.balance < t.amount →
      (resolve_case db officer cid .safe).2 = .resolved ∧
      txnStatus (resolve_case db officer cid .safe).1 c.transaction_id =
        some "Rejected - Insufficient Balance" ∧
      userBalance (resolve_case db officer cid .safe).1 t.sender_id =
        some s.balance ∧
      userBalance (resolve_case db officer cid .safe).1 t.recipient_id =
        some r.balance ∧
      caseStatus (resolve_case db officer cid .safe).1 cid = some "Resolved" ∧
      caseFinding (resolve_case db officer cid .safe).1 cid = some "Safe") ∧
    ((resolve_case db officer cid .fraudulent).2 = .resolved ∧
      txnStatus (resolve_case db officer cid .fraudulent).1 c.transaction_id =
        some "Rejected - Fraudulent" ∧
      userBalance (resolve_case db officer cid .fraudulent).1 t.sender_id =
        some s.balance ∧
      userBalance (resolve_case db officer cid .fraudulent).1 t.recipient_id =
        some r.balance ∧
      caseStatus (resolve_case db officer cid .fraudulent).1 cid =
        some "Resolved" ∧
      caseFinding (resolve_case db officer cid .fraudulent).1 cid =
        some "Fraudulent") := by
  have hcid : c.id = cid := findCase_id db cid c hc
  have hctid : t.id = c.transaction_id := findTxn_id db c.transaction_id t htx
  have hsel : caseSelectable db officer c = true := by
    rcases hstat with h | h <;> simp [caseSelectable, hassign, htx, hts, h]
  refine ⟨?_, ?_, ?_⟩
  · intro hle
    have hge : s.balance ≥ t.amount := hle
    simp only [resolve_case, hc, hsel, if_true, htx, hsend, hrec]
    rw [if_pos hge]
    have htr := userBalance_after_transfer db t.sender_id t.recipient_id
      (s.balance - t.amount) (r.balance + t.amount) s r hsend hrec hne
    refine ⟨rfl, ?_, ?_, ?_, ?_, ?_⟩
    · rw [txnStatus, findTxn_finalizeCase, findTxn_setTxnStatus,
        findTxn_updateBalance, findTxn_updateBalance, htx]
      simp [hctid]
    · rw [userBalance, findUser_finalizeCase, findUser_setTxnStatus]
      exact htr.1
    · rw [userBalance, findUser_finalizeCase, findUser_setTxnStatus]
      exact htr.2
    · rw [caseStatus, findCase_finalizeCase, findCase_setTxnStatus,
        findCase_updateBalance, findCase_updateBalance, hc]
      simp [hcid]
    · rw [caseFinding, findCase_finalizeCase, findCase_setTxnStatus,
        findCase_updateBalance, findCase_updateBalance, hc]
      simp [hcid]
  · intro hlt
    have hnge : ¬ (s.balance ≥ t.amount) := not_le.2 hlt
    simp only [resolve_case, hc, hsel, if_true, htx, hsend, hrec]
    rw [if_neg hnge]
    refine ⟨rfl, ?_, ?_, ?_, ?_, ?_⟩
    · rw [txnStatus, findTxn_finalizeCase, findTxn_setTxnStatus, htx]
      simp [hctid]
    · rw [userBalance, findUser_finalizeCase, findUser_setTxnStatus, hsend]
      rfl
    · rw [userBalance, findUser_finalizeCase, findUser_setTxnStatus, hrec]
      rfl
    · rw [caseStatus, findCase_finalizeCase, findCase_setTxnStatus, hc]
      simp [hcid]
    · rw [caseFinding, findCase_finalizeCase, findCase_setTxnStatus, hc]
      simp [hcid]
  · simp only [resolve_case, hc, hsel, if_true, htx]
    refine ⟨by trivial, ?_, ?_, ?_, ?_, ?_⟩
    · rw [txnStatus, findTxn_finalizeCase, findTxn_setTxnStatus, htx]
      simp [hctid]
    · rw [userBalance, findUser_finalizeCase, findUser_setTxnStatus, hsend]
      rfl
    · rw [userBalance, findUser_finalizeCase, findUser_setTxnStatus, hrec]
      rfl
    · rw [caseStatus, findCase_finalizeCase, findCase_setTxnStatus, hc]
      simp [hcid]
    · rw [caseFinding, findCase_finalizeCase, findCase_setTxnStatus, hc]
      simp [hcid]

theorem findTxn_appendAudit (db : DB) (row : AuditRow) (tid : Nat) :
    findTxn (appendAudit db row) tid = findTxn db tid := rfl

theorem findUser_appendAudit (db : DB) (row : AuditRow) (uid : Nat) :
    findUser (appendAudit db row) uid = findUser db uid := rfl

/-- A two-user database with default settings, an old sender account and no
prior transactions, used to instantiate concrete scenarios. -/
def dbW1 : DB :=
  ⟨[⟨1, 1000, -2000, "Alice"⟩, ⟨2, 50, -2000, "Bob"⟩], [], [], [],
   some ⟨5000, 3, ["Unknown", "High-Risk-Geo"], 4/10, 7/10, 2000⟩, 1, 1⟩

/-- Midday on a Wednesday, at epoch hour 0. -/
def clkW1 : Clock := ⟨0, 12, 2⟩

/-- A benign $100 payment request from user 1 to user 2. -/
def reqW1 : PayReq := ⟨1, 2, 100, "US", "chrome", 0, "Normal Transaction"⟩

/-- A $5000 payment request from user 1 to user 2, above user 1's balance. -/
def reqW4 : PayReq := ⟨1, 2, 5000, "US", "chrome", 0, "High Amount Test"⟩

/-- Claim C4: a payment whose sender balance is strictly below the amount is
rejected with the insufficient-balance result before any scoring — the result
is the same for every scorer outcome, including a scorer that throws — and
the database is completely unchanged: no transaction, no case, no balance
mutation, no audit row. -/
theorem spec_claim_C4 (db : DB) (clk : Clock) (ml : MLResult) (req : PayReq)
    (s r : User)
    (hs : findUser db req.sender_id = some s)
    (hr : findUser db req.recipient_id = some r)
    (hlt : s.balance < req.amount) :
    process_payment db clk ml req = (db, .insufficientBalance) := by
  simp only [process_payment, hs, hr]
  rw [if_pos hlt]

/-- Claim C8 counterexample: with a sufficient balance and a scorer that
throws, the payment is NOT decided and recorded from the rule score alone —
`process_payment`'s catch-all aborts: no transaction is inserted (the
database is returned unchanged) and the error text is displayed to the user
via `st.error` and returned in place of a status. -/
theorem spec_claim_C8_counterexample :
    process_payment dbW1 clkW1 (.thrown "ValueError") reqW1 =
      (dbW1, .errorCaught "ValueError") ∧
    (process_payment dbW1 clkW1 (.thrown "ValueError") reqW1).1.txns = [] := by
  constructor <;> rfl

/-- Claim C8 (amended): if the predictive scorer throws during feature
extraction or inference, `process_payment` does not fall back to a rule-only
decision — the enclosing `try/except` aborts the payment with the database
unchanged (no transaction recorded, no balance change), and the error is
surfaced to the end user through `st.error` and the returned error status. -/
theorem spec_claim_C8 (db : DB) (clk : Clock) (req : PayReq) (msg : String)
    (s r : User)
    (hs : findUser db req.sender_id = some s)
    (hr : findUser db req.recipient_id = some r)
    (hok : req.amount ≤ s.balance) :
    process_payment db clk (.thrown msg) req = (db, .errorCaught msg) := by
  simp only [process_payment, hs, hr]
  rw [if_neg (not_lt.2 hok)]

/-- Claim C7 (amended): admin force-approve on a Blocked transaction
re-checks the sender balance at override time; if sufficient, the funds move
and the transaction becomes "Success (Admin Override)"; if insufficient, the
override only shows an error and performs no writes — the transaction remains
in its previous "Pending Approval" state (it does not become a
rejected-insufficient-funds status). -/
theorem spec_claim_C7 (db : DB) (admin tid : Nat) (t : Txn) (s r : User)
    (ht : findTxn db tid = some t)
    (hstat : t.status = "Pending Approval")
    (hsend : findUser db t.sender_id = some s)
    (hrec : findUser db t.recipient_id = some r)
    (hne : t.sender_id ≠ t.recipient_id) :
    (t.amount ≤ s.balance →
      (admin_force_approve db admin tid).2 = .approved ∧
      txnStatus (admin_force_approve db admin tid).1 tid =
        some "Success (Admin Override)" ∧
      userBalance (admin_force_approve db admin tid).1 t.sender_id =
        some (s.balance - t.amount) ∧
      userBalance (admin_force_approve db admin tid).1 t.recipient_id =
        some (r.balance + t.amount)) ∧
    (s.balance < t.amount →
      admin_force_approve db admin tid = (db, .insufficientShown)) := by
  constructor
  · intro hle
    have hge : s.balance ≥ t.amount := hle
    simp only [admin_force_approve, ht, hstat, hsend, hrec]
    rw [if_pos (beq_self_eq_true _), if_pos hge]
    have htr := userBalance_after_transfer db t.sender_id t.recipient_id
      (s.balance - t.amount) (r.balance + t.amount) s r hsend hrec hne
    refine ⟨rfl, ?_, ?_, ?_⟩
    · rw [txnStatus, findTxn_appendAudit, findTxn_setTxnStatus,
        findTxn_updateBalance, findTxn_updateBalance, ht]
      have htid : t.id = tid := findTxn_id db tid t ht
      simp [htid]
    · rw [userBalance, findUser_appendAudit, findUser_setTxnStatus]
      exact htr.1
    · rw [userBalance, findUser_appendAudit, findUser_setTxnStatus]
      exact htr.2
  · intro hlt
    have hnge : ¬ (s.balance ≥ t.amount) := not_le.2 hlt
    simp only [admin_force_approve, ht, hstat, hsend, hrec]
    rw [if_pos (beq_self_eq_true _), if_neg hnge]

/-- A case whose status is "Resolved" is never offered by the investigation
queue, so a resolution attempt performs no reads or writes at all. -/
theorem resolve_resolvedCase_noop (db : DB) (cid : Nat) (c : Case)
    (hc : findCase db cid = some c) (hres : c.status = "Resolved")
    (o : Nat) (f : Finding) :
    resolve_case db o cid f = (db, .notSelectable) := by
  have hsel : caseSelectable db o c = false := by
    unfold caseSelectable
    cases htx : findTxn db c.transaction_id <;> simp [htx, hres]
  simp [resolve_case, hc, hsel]

/-- Whenever a resolution attempt actually resolves, the case row ends with
status "Resolved". -/
theorem resolve_resolved_sets_status (db : DB) (o cid : Nat) (f : Finding)
    (db1 : DB) (h : resolve_case db o cid f = (db1, .resolved)) :
    caseStatus db1 cid = some "Resolved" := by
  cases hc : findCase db cid with
  | none =>
    simp only [resolve_case, hc] at h
    simp at h
  | some c =>
    have hcid : c.id = cid := findCase_id db cid c hc
    by_cases hsel : caseSelectable db o c = true
    · simp only [resolve_case, hc] at h
      rw [if_pos hsel] at h
      cases htx : findTxn db c.transaction_id with
      | none =>
        rw [htx] at h
        simp at h
      | some t =>
        rw [htx] at h
        cases f with
        | fraudulent =>
          dsimp only at h
          have hdb : finalizeCase (setTxnStatus db t.id "Rejected - Fraudulent")
              o cid t.id "Fraudulent" = db1 := congrArg Prod.fst h
          rw [← hdb, caseStatus, findCase_finalizeCase, findCase_setTxnStatus, hc]
          simp [hcid]
        | safe =>
          dsimp only at h
          cases hsu : findUser db t.sender_id with
          | none =>
            rw [hsu] at h
            simp at h
          | some su =>
            rw [hsu] at h
            cases hru : findUser db t.recipient_id with
            | none =>
              rw [hru] at h
              dsimp only at h
              have hdb : finalizeCase
                  (setTxnStatus db t.id "Rejected - Insufficient Balance")
                  o cid t.id "Safe" = db1 := congrArg Prod.fst h
              rw [← hdb, caseStatus, findCase_finalizeCase, findCase_setTxnStatus, hc]
              simp [hcid]
            | some ru =>
              rw [hru] at h
              dsimp only at h
              by_cases hbal : su.balance ≥ t.amount
              · rw [if_pos hbal] at h
                have hdb : finalizeCase
                    (setTxnStatus
                      (updateBalance
                        (updateBalance db t.sender_id (su.balance - t.amount))
                        t.recipient_id (ru.balance + t.amount))
                      t.id "Success")
                    o cid t.id "Safe" = db1 := congrArg Prod.fst h
                rw [← hdb, caseStatus, findCase_finalizeCase, findCase_setTxnStatus,
                  findCase_updateBalance, findCase_updateBalance, hc]
                simp [hcid]
              · rw [if_neg hbal] at h
                have hdb : finalizeCase
                    (setTxnStatus db t.id "Rejected - Insufficient Balance")
                    o cid t.id "Safe" = db1 := congrArg Prod.fst h
                rw [← hdb, caseStatus, findCase_finalizeCase, findCase_setTxnStatus, hc]
                simp [hcid]
    · simp only [resolve_case, hc] at h
      rw [if_neg hsel] at h
      simp at h

/-- Claim C6 (amended): the idempotence guard is the queue filter, not an
AlreadyResolved error — a case whose status is "Resolved" is excluded from
the investigation queue, so an attempted second resolution (any officer, any
finding) selects nothing and is a silent no-op: the database, and with it all
balances and the linked transaction's status, stays exactly as after the
first resolution; no AlreadyResolved error exists in the code. -/
theorem spec_claim_C6 (db : DB) (cid : Nat) (c : Case)
    (hc : findCase db cid = some c) (hres : c.status = "Resolved") :
    (∀ o f, resolve_case db o cid f = (db, .notSelectable)) ∧
    (∀ db0 o f db1, resolve_case db0 o cid f = (db1, ResolveOutcome.resolved) →
      ∀ o' f', resolve_case db1 o' cid f' = (db1, .notSelectable)) := by
  constructor
  · intro o f
    exact resolve_resolvedCase_noop db cid c hc hres o f
  · intro db0 o f db1 h o' f'
    have hcs := resolve_resolved_sets_status db0 o cid f db1 h
    cases hx : findCase db1 cid with
    | none => rw [caseStatus, hx] at hcs; simp at hcs
    | some cc =>
      rw [caseStatus, hx] at hcs
      simp at hcs
      exact resolve_resolvedCase_noop db1 cid cc hx hcs o' f'

/-- A database whose only case is already Resolved (its transaction settled
by the first resolution, balances reflecting exactly one transfer). -/
def dbC6 : DB :=
  ⟨[⟨1, 900, -2000, "Alice"⟩, ⟨2, 1100, -2000, "Bob"⟩],
   [⟨1, 1, 2, 100, "Success", 1/2, 0⟩],
   [⟨1, 1, some 9, "Resolved", "Safe", "High"⟩], [], none, 2, 2⟩

/-- Claim C6 counterexample: re-resolving the already-Resolved case 1 (any
finding) does not fail with an AlreadyResolved error — it is a silent no-op:
the result is `notSelectable` (the case is simply absent from the queue) and
the database, balances and transaction status are unchanged. -/
theorem spec_claim_C6_counterexample :
    resolve_case dbC6 9 1 .fraudulent = (dbC6, .notSelectable) ∧
    userBalance dbC6 1 = some 900 ∧
    userBalance dbC6 2 = some 1100 ∧
    txnStatus dbC6 1 = some "Success" := by
  refine ⟨rfl, rfl, rfl, rfl⟩

theorem spec_claim_C6_witness :
    resolve_case dbC6 5 1 Finding.safe = (dbC6, .notSelectable) :=
  (spec_claim_C6 dbC6 1 ⟨1, 1, some 9, "Resolved", "Safe", "High"⟩ rfl rfl).1
    5 Finding.safe

theorem spec_claim_C4_witness :
    process_payment dbW1 clkW1 (.thrown "ValueError in scorer") reqW4 =
      (dbW1, .insufficientBalance) :=
  spec_claim_C4 dbW1 clkW1 (.thrown "ValueError in scorer") reqW4
    ⟨1, 1000, -2000, "Alice"⟩ ⟨2, 50, -2000, "Bob"⟩ rfl rfl (by decide)

theorem spec_claim_C8_witness :
    process_payment dbW1 clkW1 (.thrown "feature extraction error") reqW1 =
      (dbW1, .errorCaught "feature extraction error") :=
  spec_claim_C8 dbW1 clkW1 reqW1 "feature extraction error"
    ⟨1, 1000, -2000, "Alice"⟩ ⟨2, 50, -2000, "Bob"⟩ rfl rfl (by decide)

/-- A Blocked $500 transaction whose sender holds only $100. -/
def dbC7 : DB :=
  ⟨[⟨1, 100, -2000, "Alice"⟩, ⟨2, 0, -2000, "Bob"⟩],
   [⟨1, 1, 2, 500, "Pending Approval", 3/4, 0⟩], [], [], none, 2, 1⟩

/-- The same Blocked $500 transaction with a sender balance of $1000. -/
def dbC7b : DB :=
  ⟨[⟨1, 1000, -2000, "Alice"⟩, ⟨2, 0, -2000, "Bob"⟩],
   [⟨1, 1, 2, 500, "Pending Approval", 3/4, 0⟩], [], [], none, 2, 1⟩

/-- Claim C7 counterexample: force-approving a Blocked transaction whose
sender balance (100) is below the amount (500) does not set any
rejected-for-insufficient-funds status — the handler only shows an error and
the transaction stays in its previous "Pending Approval" state with no
balance change. -/
theorem spec_claim_C7_counterexample :
    admin_force_approve dbC7 9 1 = (dbC7, .insufficientShown) ∧
    txnStatus dbC7 1 = some "Pending Approval" ∧
    userBalance dbC7 1 = some 100 := by
  refine ⟨rfl, rfl, rfl⟩

theorem spec_claim_C7_witness :
    (admin_force_approve dbC7b 9 1).2 = .approved ∧
    txnStatus (admin_force_approve dbC7b 9 1).1 1 =
      some "Success (Admin Override)" ∧
    userBalance (admin_force_approve dbC7b 9 1).1 1 = some ((1000 : ℚ) - 500) ∧
    userBalance (admin_force_approve dbC7b 9 1).1 2 = some ((0 : ℚ) + 500) := by
  have h := spec_claim_C7 dbC7b 9 1 ⟨1, 1, 2, 500, "Pending Approval", 3/4, 0⟩
    ⟨1, 1000, -2000, "Alice"⟩ ⟨2, 0, -2000, "Bob"⟩ rfl rfl rfl rfl (by decide)
  exact h.1 (by decide)

/-- A Blocked $700 transaction from Alice ($1000) to Bob ($50) with its case
assigned to officer 9 and still Assigned. -/
def dbC5 : DB :=
  ⟨[⟨1, 1000, -2000, "Alice"⟩, ⟨2, 50, -2000, "Bob"⟩],
   [⟨1, 1, 2, 700, "Pending Approval", 3/4, 0⟩],
   [⟨1, 1, some 9, "Assigned", "", "High"⟩], [],
   some ⟨5000, 3, ["Unknown", "High-Risk-Geo"], 4/10, 7/10, 2000⟩, 2, 2⟩

theorem spec_claim_C5_witness :
    (resolve_case dbC5 9 1 .safe).2 = .resolved ∧
    txnStatus (resolve_case dbC5 9 1 .safe).1 1 = some "Success" ∧
    userBalance (resolve_case dbC5 9 1 .safe).1 1 = some ((1000 : ℚ) - 700) ∧
    userBalance (resolve_case dbC5 9 1 .safe).1 2 = some ((50 : ℚ) + 700) ∧
    caseStatus (resolve_case dbC5 9 1 .safe).1 1 = some "Resolved" ∧
    caseFinding (resolve_case dbC5 9 1 .safe).1 1 = some "Safe" := by
  have h := spec_claim_C5 dbC5 9 1 ⟨1, 1, some 9, "Assigned", "", "High"⟩
    ⟨1, 1, 2, 700, "Pending Approval", 3/4, 0⟩
    ⟨1, 1000, -2000, "Alice"⟩ ⟨2, 50, -2000, "Bob"⟩
    rfl rfl (Or.inl rfl) rfl rfl rfl rfl (by decide)
  exact h.1 (by decide)

theorem spec_claim_C1_witness :
    (process_payment dbW1 clkW1 (.ok 0) reqW1).2.statusOf = some "Success" ∧
    userBalance (process_payment dbW1 clkW1 (.ok 0) reqW1).1 1 =
      some ((1000 : ℚ) - 100) ∧
    userBalance (process_payment dbW1 clkW1 (.ok 0) reqW1).1 2 =
      some ((50 : ℚ) + 100) ∧
    0 ≤ finalScore dbW1 clkW1 reqW1 0 ∧ finalScore dbW1 clkW1 reqW1 0 ≤ 1 := by
  have h := spec_claim_C1 dbW1 clkW1 reqW1 0
    ⟨1, 1000, -2000, "Alice"⟩ ⟨2, 50, -2000, "Bob"⟩ rfl rfl (by decide) (by decide)
    (by decide) (by decide)
  have hdet : suspicious_indicators.filter (fun s => containsLower "chrome" s) =
      ([] : List String) := by decide
  have hage7 : ¬ (Int.fdiv 2000 24 < 7) := by decide
  have hage30 : ¬ (Int.fdiv 2000 24 < 30) := by decide
  have hu1 : ("US" : String) ≠ "Unknown" := by decide
  have hu2 : ("US" : String) ≠ "High-Risk-Geo" := by decide
  have hu3 : ("US" : String) ≠ "Tor-Exit-Node" := by decide
  have hu4 : ("US" : String) ≠ "VPN-Detected" := by decide
  have hu5 : ("Normal Transaction" : String) ≠ "High Amount Test" := by decide
  have hrule : calculate_fraud_risk_score dbW1 clkW1 reqW1 = (0, []) := by
    norm_num [calculate_fraud_risk_score, addRisk, txLimit, dbW1, clkW1, reqW1,
      isMultipleOf100, high_risk_locations, recentTxs24h, historyTxs,
      accountAgeDays, findUser, List.find?, hdet, hage7, hage30, hu1, hu2, hu3,
      hu4, hu5, Rat.den_ofNat]
  have hflag : finalScore dbW1 clkW1 reqW1 0 < 4/10 := by
    unfold finalScore
    rw [hrule]
    norm_num
  exact ⟨(h.2.1 hflag).1, (h.2.1 hflag).2.1, (h.2.1 hflag).2.2.1,
    h.1.2.1, h.1.2.2⟩

/-- Claim C10: every `log_audit` call supplies a `meta` column that the
`audit_logs` table does not have, so each of the 3 insert attempts raises;
the attempts sleep with strictly increasing base delays (0.1 then 0.2,
`retry_delay` doubling after each sleep), the failure is swallowed
(`log_audit` returns False instead of raising) and no audit row is ever
persisted; the triggering operation — here `auth_login` with valid
credentials of an approved user — still completes successfully. -/
theorem spec_claim_C10 :
    insertAccepted audit_logs_columns log_audit_insert_columns = false ∧
    (∀ (t : List AuditRow) (row : AuditRow),
      log_audit t row = (t, false, 3, [1/10, 2/10])) ∧
    ((1 : ℚ)/10 < 2/10) ∧
    (∀ (usersT : List AuthUser) (auditT : List AuditRow) (e p : String),
      (auth_login usersT auditT e p).2 = auditT) ∧
    (auth_login [⟨3, "user@fraud-detect.local", "user123", "approved", "John"⟩]
      [] "user@fraud-detect.local" "user123").1 = true := by
  have hacc : insertAccepted audit_logs_columns log_audit_insert_columns = false := by
    decide
  have hlog : ∀ (t : List AuditRow) (row : AuditRow),
      log_audit t row = (t, false, 3, [1/10, 2/10]) := by
    intro t row
    simp only [log_audit, log_audit_go, attemptAuditInsert, hacc, if_false,
      Bool.false_eq_true]
    norm_num
  refine ⟨hacc, hlog, by norm_num, ?_, ?_⟩
  · intro usersT auditT e p
    unfold auth_login
    cases hf : usersT.find? (fun u => u.email == e) with
    | none => rfl
    | some u =>
      by_cases h1 : u.status == "pending"
      · simp [h1]
      · by_cases h2 : u.status == "rejected"
        · simp [h1, h2]
        · by_cases h3 : u.status != "approved"
          · simp [h1, h2, h3]
          · by_cases h4 : p == u.password
            · simp [h1, h2, h3, h4, hlog]
            · simp [h1, h2, h3, h4]
  · unfold auth_login
    simp [hlog]

/-- The same two-user world as `dbW1` but with the admin-configured
thresholds raised to flag = 0.9 and block = 0.95 in the Settings record. -/
def dbC3 : DB :=
  ⟨[⟨1, 1000, -2000, "Alice"⟩, ⟨2, 50, -2000, "Bob"⟩], [], [], [],
   some ⟨5000, 3, ["Unknown", "High-Risk-Geo"], 9/10, 95/100, 2000⟩, 1, 1⟩

/-- Claim C3, evaluated at the failing input: after the Settings record
holds flag_threshold = 0.9, a payment with final score 0.42 should (per the
configured thresholds) be classified "Success", but `process_payment`
classifies with the hard-coded 0.4/0.7 constants and yields "Under Review",
creating a Medium case — setConfiguration changes do not reach the payment
decision. -/
theorem spec_claim_C3 :
    (dbC3.settings.map SettingsVal.flag_threshold) = some (9/10) ∧
    (process_payment dbC3 clkW1 (.ok (3/5)) reqW1).2.finalOf = some (21/50) ∧
    ((21 : ℚ)/50 < 9/10) ∧
    (process_payment dbC3 clkW1 (.ok (3/5)) reqW1).2.statusOf =
      some "Under Review" ∧
    (process_payment dbC3 clkW1 (.ok (3/5)) reqW1).1.cases =
      [⟨1, 1, none, "Assigned", "", "Medium"⟩] := by
  have hdet : suspicious_indicators.filter (fun s => containsLower "chrome" s) =
      ([] : List String) := by decide
  have hage7 : ¬ (Int.fdiv 2000 24 < 7) := by decide
  have hage30 : ¬ (Int.fdiv 2000 24 < 30) := by decide
  have hu1 : ("US" : String) ≠ "Unknown" := by decide
  have hu2 : ("US" : String) ≠ "High-Risk-Geo" := by decide
  have hu3 : ("US" : String) ≠ "Tor-Exit-Node" := by decide
  have hu4 : ("US" : String) ≠ "VPN-Detected" := by decide
  have hu5 : ("Normal Transaction" : String) ≠ "High Amount Test" := by decide
  have hb12 : (((1:ℕ) == 2) : Bool) = false := by decide
  have hb21 : (((2:ℕ) == 1) : Bool) = false := by decide
  have hrule : calculate_fraud_risk_score dbC3 clkW1 reqW1 = (0, []) := by
    norm_num [calculate_fraud_risk_score, addRisk, txLimit, dbC3, clkW1, reqW1,
      isMultipleOf100, high_risk_locations, recentTxs24h, historyTxs,
      accountAgeDays, findUser, List.find?, hdet, hage7, hage30, hu1, hu2, hu3,
      hu4, hu5, Rat.den_ofNat]
  have hf1 : findUser dbC3 1 = some ⟨1, 1000, -2000, "Alice"⟩ := rfl
  have hf2 : findUser dbC3 2 = some ⟨2, 50, -2000, "Bob"⟩ := rfl
  have hq1 : reqW1.sender_id = 1 := rfl
  have hq2 : reqW1.recipient_id = 2 := rfl
  have hq3 : reqW1.amount = 100 := rfl
  have hq4 : reqW1.location = "US" := rfl
  have hck : clkW1.now = 0 := rfl
  have hn1 : dbC3.nextTxnId = 1 := rfl
  have hn2 : dbC3.nextCaseId = 1 := rfl
  have hc0 : dbC3.cases = [] := rfl
  have ht0 : dbC3.txns = [] := rfl
  have ha0 : dbC3.audits = [] := rfl
  have hbu1 : (("US" == "Unknown") : Bool) = false := by decide
  have hbu2 : (("US" == "High-Risk-Geo") : Bool) = false := by decide
  have hbs : (("Under Review" == "Pending Approval") : Bool) = false := by decide
  have hbn : (("Bob" == "") : Bool) = false := by decide
  have hpp : (process_payment dbC3 clkW1 (.ok (3/5)) reqW1).2 =
      .ok 1 "Under Review" (21/50) [.mlFlagged (3/5)] "Bob" := by
    norm_num [process_payment, hq1, hq2, hq3, hq4, hck, hf1, hf2, hrule,
      hn1, hn2, hc0, ht0, ha0, hbu1, hbu2, hbs, hbn, updateBalance]
  have hcases : (process_payment dbC3 clkW1 (.ok (3/5)) reqW1).1.cases =
      [⟨1, 1, none, "Assigned", "", "Medium"⟩] := by
    norm_num [process_payment, hq1, hq2, hq3, hq4, hck, hf1, hf2, hrule,
      hn1, hn2, hc0, ht0, ha0, hbu1, hbu2, hbs, hbn, updateBalance]
  refine ⟨rfl, ?_, by norm_num, ?_, hcases⟩
  · rw [hpp]
    rfl
  · rw [hpp]
    rfl

/-- Two users with $1000 each, default settings, no history. -/
def dbC2 : DB :=
  ⟨[⟨1, 1000, -2000, "Alice"⟩, ⟨2, 1000, -2000, "Bob"⟩], [], [], [],
   some ⟨5000, 3, ["Unknown", "High-Risk-Geo"], 4/10, 7/10, 2000⟩, 1, 1⟩

/-- `dbC2` after the $100 payment was processed as "Under Review": funds
already moved (900/1100) and a Medium-priority case exists. -/
def dbC2' : DB :=
  ⟨[⟨1, 900, -2000, "Alice"⟩, ⟨2, 1100, -2000, "Bob"⟩],
   [⟨1, 1, 2, 100, "Under Review", 21/50, 0⟩],
   [⟨1, 1, none, "Assigned", "", "Medium"⟩],
   [⟨1, "process_payment", "transaction", 1⟩],
   some ⟨5000, 3, ["Unknown", "High-Risk-Geo"], 4/10, 7/10, 2000⟩, 2, 2⟩

/-- `dbC2'` after the admin assigned the case to officer 9 (In Review). -/
def dbC2'' : DB :=
  ⟨[⟨1, 900, -2000, "Alice"⟩, ⟨2, 1100, -2000, "Bob"⟩],
   [⟨1, 1, 2, 100, "Under Review", 21/50, 0⟩],
   [⟨1, 1, some 9, "In Review", "", "Medium"⟩],
   [⟨1, "process_payment", "transaction", 1⟩, ⟨7, "assign_case", "case", 1⟩],
   some ⟨5000, 3, ["Unknown", "High-Risk-Geo"], 4/10, 7/10, 2000⟩, 2, 2⟩

/-- Claim C2 evaluation at the failing input: a $100 payment lands in
"Under Review" and its balance effect is applied at creation (900/1100);
after the case is assigned and resolved with finding Safe, the code debits
the sender and credits the recipient a SECOND time (800/1200) — the
exactly-once balance invariant is violated by the code. -/
theorem spec_claim_C2 :
    process_payment dbC2 clkW1 (.ok (3/5)) reqW1 =
      (dbC2', .ok 1 "Under Review" (21/50) [.mlFlagged (3/5)] "Bob") ∧
    userBalance dbC2' 1 = some 900 ∧
    userBalance dbC2' 2 = some 1100 ∧
    txnStatus dbC2' 1 = some "Under Review" ∧
    assign_case dbC2' 7 9 1 = dbC2'' ∧
    (resolve_case dbC2'' 9 1 .safe).2 = .resolved ∧
    userBalance (resolve_case dbC2'' 9 1 .safe).1 1 = some 800 ∧
    userBalance (resolve_case dbC2'' 9 1 .safe).1 2 = some 1200 ∧
    txnStatus (resolve_case dbC2'' 9 1 .safe).1 1 = some "Success" := by
  have hdet : suspicious_indicators.filter (fun s => containsLower "chrome" s) =
      ([] : List String) := by decide
  have hage7 : ¬ (Int.fdiv 2000 24 < 7) := by decide
  have hage30 : ¬ (Int.fdiv 2000 24 < 30) := by decide
  have hu1 : ("US" : String) ≠ "Unknown" := by decide
  have hu2 : ("US" : String) ≠ "High-Risk-Geo" := by decide
  have hu3 : ("US" : String) ≠ "Tor-Exit-Node" := by decide
  have hu4 : ("US" : String) ≠ "VPN-Detected" := by decide
  have hu5 : ("Normal Transaction" : String) ≠ "High Amount Test" := by decide
  have hb12 : (((1:ℕ) == 2) : Bool) = false := by decide
  have hb21 : (((2:ℕ) == 1) : Bool) = false := by decide
  have hrule : calculate_fraud_risk_score dbC2 clkW1 reqW1 = (0, []) := by
    norm_num [calculate_fraud_risk_score, addRisk, txLimit, dbC2, clkW1, reqW1,
      isMultipleOf100, high_risk_locations, recentTxs24h, historyTxs,
      accountAgeDays, findUser, List.find?, hdet, hage7, hage30, hu1, hu2, hu3,
      hu4, hu5, Rat.den_ofNat]
  have hf1 : findUser dbC2 1 = some ⟨1, 1000, -2000, "Alice"⟩ := rfl
  have hf2 : findUser dbC2 2 = some ⟨2, 1000, -2000, "Bob"⟩ := rfl
  have hq1 : reqW1.sender_id = 1 := rfl
  have hq2 : reqW1.recipient_id = 2 := rfl
  have hq3 : reqW1.amount = 100 := rfl
  have hq4 : reqW1.location = "US" := rfl
  have hck : clkW1.now = 0 := rfl
  have hn1 : dbC2.nextTxnId = 1 := rfl
  have hn2 : dbC2.nextCaseId = 1 := rfl
  have hc0 : dbC2.cases = [] := rfl
  have ht0 : dbC2.txns = [] := rfl
  have ha0 : dbC2.audits = [] := rfl
  have hbu1 : (("US" == "Unknown") : Bool) = false := by decide
  have hbu2 : (("US" == "High-Risk-Geo") : Bool) = false := by decide
  have hbs : (("Under Review" == "Pending Approval") : Bool) = false := by decide
  have hbn : (("Bob" == "") : Bool) = false := by decide
  have hu0 : dbC2.users =
      [⟨1, 1000, -2000, "Alice"⟩, ⟨2, 1000, -2000, "Bob"⟩] := rfl
  have hset : dbC2.settings =
      some ⟨5000, 3, ["Unknown", "High-Risk-Geo"], 4/10, 7/10, 2000⟩ := rfl
  have hne12 : (1 : ℕ) ≠ 2 := by decide
  have hne21 : (2 : ℕ) ≠ 1 := by decide
  have hpay : process_payment dbC2 clkW1 (.ok (3/5)) reqW1 =
      (dbC2', .ok 1 "Under Review" (21/50) [.mlFlagged (3/5)] "Bob") := by
    norm_num [process_payment, hq1, hq2, hq3, hq4, hck, hf1, hf2, hrule,
      hn1, hn2, hc0, ht0, ha0, hu0, hset, hne12, hne21, hbu1, hbu2, hbs, hbn,
      dbC2', updateBalance]
  have hassign : assign_case dbC2' 7 9 1 = dbC2'' := by
    norm_num [assign_case, appendAudit, dbC2', dbC2'']
  have hsA : (("In Review" == "Assigned") : Bool) = false := by decide
  have hres : (resolve_case dbC2'' 9 1 .safe).1 =
      ⟨[⟨1, 800, -2000, "Alice"⟩, ⟨2, 1200, -2000, "Bob"⟩],
       [⟨1, 1, 2, 100, "Success", 21/50, 0⟩],
       [⟨1, 1, some 9, "Resolved", "Safe", "Medium"⟩],
       [⟨1, "process_payment", "transaction", 1⟩, ⟨7, "assign_case", "case", 1⟩,
        ⟨9, "comprehensive_investigation_resolution_safe", "fraud_investigation", 1⟩],
       some ⟨5000, 3, ["Unknown", "High-Risk-Geo"], 4/10, 7/10, 2000⟩, 2, 2⟩ ∧
      (resolve_case dbC2'' 9 1 .safe).2 = .resolved := by
    have hlow : "comprehensive_investigation_resolution_" ++ strToLower "Safe" =
        "comprehensive_investigation_resolution_safe" := by decide
    norm_num [resolve_case, caseSelectable, finalizeCase, setTxnStatus,
      updateBalance, findCase, findTxn, findUser, List.find?, dbC2'', hb12, hb21,
      hsA, hlow]
  refine ⟨hpay, rfl, rfl, rfl, hassign, hres.2, ?_, ?_, ?_⟩
  · rw [hres.1]; rfl
  · rw [hres.1]; rfl
  · rw [hres.1]; rfl

end FraudApp
